import Mathlib

/-!
Shallow embedding of duchess's reflection engine (`src/macro/src/reflect.rs`):
the `Reflector` cache, the declaration-tree builder
(`DuchessDeclaration::to_root_map`, `JavaPackage::to_spanned_packages`,
`insert_classes_into_root_map`, `make_absolute_dot_id`), the
method/constructor resolver (`Reflector::reflect_method`) and the
`ReflectedMethod` accessors.

Effects are made explicit: `reflect` takes an environment (the `CLASSPATH`
variable and the behaviour of the external `javap` subprocess) and returns,
alongside its result, the updated cache and the list of subprocess
invocations it performed.  A Rust `panic!`/`todo!` is modelled as the
`fatal` outcome, distinct from a returned `Err`.
-/

namespace Duchess

/-- Java identifier (the repository's `Id` is an interned string). -/
abbrev Id := String

/-- Dotted Java name, e.g. `java.lang.Object` (the repository's `DotId`:
a non-empty sequence of identifiers whose last element is the class name). -/
structure DotId where
  ids : List Id
deriving DecidableEq, Repr

/-- `DotId::split`: all leading segments (the package) and the final segment
(the class name). -/
def DotId.split (d : DotId) : List Id × Id :=
  (d.ids.dropLast, d.ids.getLastD "")

/-- `DotId::new(package, class)`. -/
def DotId.new (package : List Id) (cls : Id) : DotId :=
  ⟨package ++ [cls]⟩

/-- Dot-joined display form of a `DotId`. -/
def DotId.display (d : DotId) : String :=
  String.intercalate "." d.ids

/-- Source location attached to declarations and errors.  `proc_macro2::Span`
is opaque; the model distinguishes the one value produced by
`Span::call_site()` from spans of user-written source. -/
inductive Span where
  | callSite
  | source (n : Nat)
deriving DecidableEq, Repr

/-- The repository's `SpanError`: a source location plus a message. -/
structure SpanError where
  span : Span
  message : String
deriving DecidableEq, Repr

/-- A spanned identifier (the repository's `Ident` from `argument.rs`,
which is absent from `src/`; modelled from its uses in `reflect.rs`:
`to_id()`, `.span`, and display as its text). -/
structure Ident where
  text : String
  span : Span
deriving DecidableEq, Repr

/-- `Ident::to_id`. -/
def Ident.to_id (i : Ident) : Id := i.text

/-- A dotted path of spanned identifiers with an overall span (the
repository's class-path type from `argument.rs`, absent from `src/`;
modelled from its uses: `.ids`, `.span`, `to_dot_id()`). -/
structure JavaPath where
  ids : List Ident
  span : Span
deriving DecidableEq, Repr

/-- Qualified name denoted by a path. -/
def JavaPath.to_dot_id (p : JavaPath) : DotId :=
  ⟨p.ids.map Ident.to_id⟩

/-- Dot-joined display form of a path. -/
def JavaPath.display (p : JavaPath) : String :=
  String.intercalate "." (p.ids.map Ident.to_id)

/-- Modelled from the spec: the recursive type-expression grammar (§3
TypeExpr) of `class_info.rs`, which is absent from `src/`.  Only its shape
matters here; no claim inspects type expressions. -/
inductive JType where
  | primitive (name : Id)
  | classRef (name : DotId) (args : List JType)
  | array (elem : JType)
  | typeVar (name : Id)
deriving Repr

/-- Modelled from the spec: a generic parameter (§3 GenericParam) of
`class_info.rs`, absent from `src/`. -/
structure Generic where
  id : Id
  bound : Option JType
deriving Repr

/-- Modelled from the spec: method flags; `reflect.rs` reads
`m.flags.is_static`. -/
structure Flags where
  is_static : Bool
deriving Repr

/-- Modelled from the spec: a constructor descriptor (§3 Constructor) of
`class_info.rs`, absent from `src/`. -/
structure Constructor where
  generics : List Generic
  argument_tys : List JType
deriving Repr

/-- Modelled from the spec: a method descriptor (§3 Method) of
`class_info.rs`, absent from `src/`; `reflect.rs` reads `name`, `flags`,
`generics`, `argument_tys`. -/
structure Method where
  name : Id
  flags : Flags
  generics : List Generic
  argument_tys : List JType
  return_ty : Option JType
deriving Repr

/-- Modelled from the spec: a field descriptor (§3 ClassInfo fields). -/
structure JField where
  name : Id
  ty : JType
deriving Repr

/-- Modelled from the spec: the class descriptor (§3 ClassInfo) of
`class_info.rs`, absent from `src/`; `reflect.rs` reads and updates `name`,
`span`, `constructors`, `methods`. -/
structure ClassInfo where
  name : DotId
  span : Span
  constructors : List Constructor
  methods : List Method
  fields : List JField
deriving Repr

/-! ### Association-list maps (the model of `BTreeMap`) -/

/-- Lookup in an association list (model of `BTreeMap` lookup /
`contains_key` / indexing; key order is irrelevant to every claim). -/
def mapFind {κ α : Type} [DecidableEq κ] : List (κ × α) → κ → Option α
  | [], _ => none
  | (k2, v) :: rest, k => if k2 = k then some v else mapFind rest k

/-- Insert-or-replace in an association list (model of `BTreeMap::insert`
and of writing through `entry(..)`). -/
def mapInsert {κ α : Type} [DecidableEq κ] : List (κ × α) → κ → α → List (κ × α)
  | [], k, v => [(k, v)]
  | (k2, v2) :: rest, k, v =>
      if k2 = k then (k2, v) :: rest else (k2, v2) :: mapInsert rest k v

/-! ### The external world -/

/-- Captured bytes of a subprocess stream, abstracted to whether they decode
as UTF-8 (`String::from_utf8` succeeds) or not. -/
inductive Bytes where
  | valid (s : String)
  | invalid (tag : Nat)
deriving DecidableEq, Repr

/-- Model of `String::from_utf8` on captured bytes. -/
def Bytes.decodeUtf8 : Bytes → Option String
  | .valid s => some s
  | .invalid _ => none

/-- Model of `String::from_utf8(..).unwrap_or(String::from("error"))`. -/
def Bytes.decodeOrError (b : Bytes) : String :=
  (b.decodeUtf8).getD "error"

/-- Captured output of a finished subprocess (`std::process::Output`):
exit-status success flag, stdout, stderr. -/
structure ProcOutput where
  success : Bool
  stdout : Bytes
  stderr : Bytes
deriving DecidableEq, Repr

/-- Result of attempting `Command::output()` on the disassembler: either the
spawn itself failed, or the process ran and produced output. -/
inductive JavapResult where
  | spawnError (msg : String)
  | output (o : ProcOutput)
deriving DecidableEq, Repr

/-- The ambient environment of one run: the `CLASSPATH` environment
variable, the behaviour of the external `javap` tool per requested class
name, and the signature parser.  The parser (`ClassInfo::parse` in
`class_info.rs`) is absent from `src/` and is modelled from the spec as an
abstract function from listing text to a `ClassInfo` or a parse error;
every theorem below holds for an arbitrary parser. -/
structure Env where
  classpath : Option String
  javap : DotId → JavapResult
  parse : String → Span → Except SpanError ClassInfo

/-- Outcome of running a fallible, possibly-panicking computation:
a returned value, a returned error, or a Rust `panic!`/`todo!` (`fatal`). -/
inductive PResult (α : Type) where
  | ok (a : α)
  | err (e : SpanError)
  | fatal (msg : String)
deriving Repr

/-- Is the outcome a returned error? -/
def PResult.isErr {α : Type} : PResult α → Bool
  | .err _ => true
  | _ => false

/-- The reflection cache (`Reflector`): qualified name → shared `ClassInfo`.
The `Arc` sharing of the Rust code is modelled by value equality: two
results are "the identical shared instance" when they are the same cache
entry. -/
structure Reflector where
  classes : List (DotId × ClassInfo)

/-- The panic message of `reflect` when `CLASSPATH` is unreadable. -/
def classpathPanicMsg : String :=
  "duchess cannot read the CLASSPATH environment variable"

/-- `Reflector::reflect`, with effects explicit: returns the outcome, the
updated cache, and the list of `javap` invocations performed (one entry per
`command.output()` call).  Mirrors `reflect.rs` lines 129-193: cache hit
returns the entry with no subprocess; on a miss, a missing `CLASSPATH`
panics before any subprocess; then the tool runs once and spawn failure,
nonzero exit, non-UTF-8 stdout and parse failure each return an error; on
success the parsed info's span is reset to `Span::call_site()` and the
entry is inserted and returned. -/
def Reflector.reflect (env : Env) (r : Reflector) (class_name : DotId) (span : Span) :
    PResult ClassInfo × Reflector × List DotId :=
  match mapFind r.classes class_name with
  | some ci => (.ok ci, r, [])
  | none =>
    match env.classpath with
    | none => (.fatal classpathPanicMsg, r, [])
    | some _ =>
      match env.javap class_name with
      | .spawnError msg =>
          (.err ⟨span, "failed to execute `javap`: " ++ msg⟩, r, [class_name])
      | .output o =>
          if !o.success then
            (.err ⟨span, "unsuccessful execution of `javap`: " ++ o.stderr.decodeOrError⟩,
              r, [class_name])
          else
            match o.stdout.decodeUtf8 with
            | none =>
                (.err ⟨span, "failed to parse output of `javap` as utf-8"⟩, r, [class_name])
            | some s =>
                match env.parse s span with
                | .error e => (.err e, r, [class_name])
                | .ok ci0 =>
                    let ci : ClassInfo := { ci0 with span := Span.callSite }
                    (.ok ci, ⟨mapInsert r.classes class_name ci⟩, [class_name])

/-- The repository's `MethodSelector` (from `argument.rs`, absent from
`src/`; modelled from its uses in `reflect.rs`): a class name, a class name
plus a method name, or an already-reflected `ClassInfo`. -/
inductive MethodSelector where
  | className (cn : JavaPath)
  | methodName (cn : JavaPath) (mn : Ident)
  | classInfo (ci : ClassInfo)

/-- A resolved callable (`ReflectedMethod`). -/
inductive ReflectedMethod where
  | constructor (ci : ClassInfo) (c : Constructor)
  | method (ci : ClassInfo) (m : Method)

/-- `ReflectedMethod::name`: the name of the callable in Rust. -/
def ReflectedMethod.name : ReflectedMethod → Id
  | .constructor _ _ => "new"
  | .method _ m => m.name

/-- `ReflectedMethod::class`. -/
def ReflectedMethod.classOf : ReflectedMethod → ClassInfo
  | .constructor c _ => c
  | .method c _ => c

/-- `ReflectedMethod::is_static`. -/
def ReflectedMethod.is_static : ReflectedMethod → Bool
  | .constructor _ _ => true
  | .method _ m => m.flags.is_static

/-- `ReflectedMethod::generics`. -/
def ReflectedMethod.generics : ReflectedMethod → List Generic
  | .constructor _ c => c.generics
  | .method _ m => m.generics

/-- `ReflectedMethod::argument_tys`. -/
def ReflectedMethod.argument_tys : ReflectedMethod → List JType
  | .constructor _ c => c.argument_tys
  | .method _ m => m.argument_tys

/-- The `todo!()` panic message of an unimplemented branch. -/
def todoPanicMsg : String := "not yet implemented"

/-- `Reflector::reflect_method` (`reflect.rs` lines 196-226), with the same
explicit effects as `reflect`.  A class-only selector requires exactly one
constructor; a class+method selector filters methods by exact name equality
and requires exactly one match; the `ClassInfo` selector variant hits
`todo!()`. -/
def Reflector.reflect_method (env : Env) (r : Reflector) (sel : MethodSelector) :
    PResult ReflectedMethod × Reflector × List DotId :=
  match sel with
  | .className cn =>
    match r.reflect env cn.to_dot_id cn.span with
    | (.ok class_info, r2, log) =>
      (match class_info.constructors with
       | [c] => (.ok (.constructor class_info c), r2, log)
       | [] => (.err ⟨cn.span, "no constructors found"⟩, r2, log)
       | cs =>
          (.err ⟨cn.span, toString cs.length ++
            " constructors found, use an explicit class declaration to disambiguate"⟩,
            r2, log))
    | (.err e, r2, log) => (.err e, r2, log)
    | (.fatal m, r2, log) => (.fatal m, r2, log)
  | .methodName cn mn =>
    match r.reflect env cn.to_dot_id cn.span with
    | (.ok class_info, r2, log) =>
      (match class_info.methods.filter (fun m => m.name == mn.text) with
       | [m] => (.ok (.method class_info m), r2, log)
       | [] => (.err ⟨cn.span, "no methods named `" ++ mn.text ++ "` found"⟩, r2, log)
       | ms =>
          (.err ⟨cn.span, toString ms.length ++ " methods named `" ++ mn.text ++
            "` found, use an explicit class declaration to disambiguate"⟩,
            r2, log))
    | (.err e, r2, log) => (.err e, r2, log)
    | (.fatal m, r2, log) => (.fatal m, r2, log)
  | .classInfo _ => (.fatal todoPanicMsg, r, [])

/-! ### The declaration-tree builder -/

/-- A node of the package tree (`SpannedPackageInfo` from `class_info.rs`,
modelled from its construction and uses in `reflect.rs`): a name segment,
a span, a subpackage map and the qualified names of the classes declared
directly in this package. -/
inductive SpannedPackageInfo where
  | mk (name : Id) (span : Span) (subpackages : List (Id × SpannedPackageInfo))
      (classes : List DotId)

/-- Name segment of a package node. -/
def SpannedPackageInfo.name : SpannedPackageInfo → Id
  | .mk n _ _ _ => n

/-- Span of a package node. -/
def SpannedPackageInfo.span : SpannedPackageInfo → Span
  | .mk _ s _ _ => s

/-- Subpackage map of a package node. -/
def SpannedPackageInfo.subpackages : SpannedPackageInfo → List (Id × SpannedPackageInfo)
  | .mk _ _ subs _ => subs

/-- Class list of a package node. -/
def SpannedPackageInfo.classes : SpannedPackageInfo → List DotId
  | .mk _ _ _ cs => cs

/-- Replace the subpackage map of a node (the in-place mutation of
`parent.subpackages`). -/
def SpannedPackageInfo.withSubpackages :
    SpannedPackageInfo → List (Id × SpannedPackageInfo) → SpannedPackageInfo
  | .mk n s _ cs, subs => .mk n s subs cs

/-- `package.classes.push(dot_id)`. -/
def SpannedPackageInfo.pushClass : SpannedPackageInfo → DotId → SpannedPackageInfo
  | .mk n s subs cs, d => .mk n s subs (cs ++ [d])

/-- Append a whole list of qualified names to a node's class list. -/
def SpannedPackageInfo.appendClasses : SpannedPackageInfo → List DotId → SpannedPackageInfo
  | .mk n s subs cs, ds => .mk n s subs (cs ++ ds)

/-- A class declaration inside a package (`ClassDecl` from `argument.rs`,
absent from `src/`; modelled from its uses in `reflect.rs`): either
reflected (look the class up via the `Reflector`) or fully specified by a
literal `ClassInfo`. -/
inductive ClassDecl where
  | reflected (span : Span) (name : DotId)
  | specified (c : ClassInfo)

/-- The span of a class declaration (`c.span` in both match arms). -/
def ClassDecl.declSpan : ClassDecl → Span
  | .reflected s _ => s
  | .specified c => c.span

/-- The declared (possibly unqualified) name of a class declaration. -/
def ClassDecl.declName : ClassDecl → DotId
  | .reflected _ n => n
  | .specified c => c.name

/-- A package declaration (`JavaPackage` from `argument.rs`, absent from
`src/`; modelled from its uses): a dotted package name and the class
declarations it contains. -/
structure JavaPackage where
  package_name : JavaPath
  classes : List ClassDecl

/-- The whole declaration input (`DuchessDeclaration`). -/
structure DuchessDeclaration where
  packages : List JavaPackage

/-- The builder's output (`RootMap`): root-level package nodes plus the
flat qualified-name → shared `ClassInfo` map. -/
structure RootMap where
  subpackages : List (Id × SpannedPackageInfo)
  classes : List (DotId × ClassInfo)

/-- The `PackageMismatch` message of `make_absolute_dot_id`. -/
def packageMismatchMsg (p : JavaPackage) (class_dot_id : DotId) : String :=
  "class `" ++ class_dot_id.display ++ "` expected to be in package `" ++
    p.package_name.display ++ "`"

/-- `JavaPackage::make_absolute_dot_id` (`reflect.rs` lines 95-117): an
unqualified class name is prefixed with the enclosing package's name; an
explicitly qualified one must match the enclosing package exactly, else a
mismatch error carrying the declaration's span. -/
def JavaPackage.make_absolute_dot_id (p : JavaPackage) (span : Span) (class_dot_id : DotId) :
    Except SpanError DotId :=
  let package_ids : List Id := p.package_name.ids.map Ident.to_id
  let package := class_dot_id.split.1
  if package = [] then
    .ok (DotId.new package_ids class_dot_id.split.2)
  else if package_ids ≠ package then
    .error ⟨span, packageMismatchMsg p class_dot_id⟩
  else
    .ok class_dot_id

/-- The loop body of `JavaPackage::insert_classes_into_root_map`
(`reflect.rs` lines 63-92), recursing over the remaining class
declarations.  State (package node, flat class map, reflector) is threaded
explicitly and returned as far as execution got, mirroring the in-place
mutation of the Rust code. -/
def JavaPackage.insertClassesFrom (env : Env) (p : JavaPackage) :
    List ClassDecl → SpannedPackageInfo → List (DotId × ClassInfo) → Reflector →
    PResult Unit × SpannedPackageInfo × List (DotId × ClassInfo) × Reflector × List DotId
  | [], pkg, classes, r => (.ok (), pkg, classes, r, [])
  | c :: cs, pkg, classes, r =>
    match c with
    | .reflected cspan cname =>
      match p.make_absolute_dot_id cspan cname with
      | .error e => (.err e, pkg, classes, r, [])
      | .ok dot_id =>
        match r.reflect env dot_id cspan with
        | (.ok info, r2, log1) =>
            let pkg2 := pkg.pushClass dot_id
            let classes2 := mapInsert classes dot_id info
            let (res, pkg3, classes3, r3, log2) := p.insertClassesFrom env cs pkg2 classes2 r2
            (res, pkg3, classes3, r3, log1 ++ log2)
        | (.err e, r2, log1) => (.err e, pkg, classes, r2, log1)
        | (.fatal m, r2, log1) => (.fatal m, pkg, classes, r2, log1)
    | .specified cinfo =>
      match p.make_absolute_dot_id cinfo.span cinfo.name with
      | .error e => (.err e, pkg, classes, r, [])
      | .ok dot_id =>
        let info : ClassInfo := { cinfo with name := dot_id }
        let pkg2 := pkg.pushClass dot_id
        let classes2 := mapInsert classes dot_id info
        let (res, pkg3, classes3, r3, log2) := p.insertClassesFrom env cs pkg2 classes2 r
        (res, pkg3, classes3, r3, log2)

/-- `JavaPackage::insert_classes_into_root_map`: iterate over `self.classes`. -/
def JavaPackage.insert_classes_into_root_map (env : Env) (p : JavaPackage)
    (pkg : SpannedPackageInfo) (classes : List (DotId × ClassInfo)) (r : Reflector) :
    PResult Unit × SpannedPackageInfo × List (DotId × ClassInfo) × Reflector × List DotId :=
  p.insertClassesFrom env p.classes pkg classes r

/-- `JavaPackage::to_spanned_packages` (`reflect.rs` lines 34-61):
walk the remaining name segments, creating missing intermediate nodes
(`entry(..).or_insert_with(package_info)`), and insert the package's
classes at the final segment.  `split_first().unwrap()` on an empty
segment list is a panic. -/
def JavaPackage.to_spanned_packages (env : Env) (p : JavaPackage) :
    List Ident → List (Id × SpannedPackageInfo) → List (DotId × ClassInfo) → Reflector →
    PResult Unit × List (Id × SpannedPackageInfo) × List (DotId × ClassInfo) ×
      Reflector × List DotId
  | [], map, classes, r =>
      (.fatal "called `Option::unwrap()` on a `None` value", map, classes, r, [])
  | first :: rest, map, classes, r =>
    let fid := first.to_id
    let parent := (mapFind map fid).getD (.mk fid first.span [] [])
    if rest.isEmpty then
      let (res, pkg2, classes2, r2, log) :=
        p.insert_classes_into_root_map env parent classes r
      (res, mapInsert map fid pkg2, classes2, r2, log)
    else
      let (res, subs2, classes2, r2, log) :=
        p.to_spanned_packages env rest parent.subpackages classes r
      (res, mapInsert map fid (parent.withSubpackages subs2), classes2, r2, log)

/-- The loop of `DuchessDeclaration::to_root_map` over the declared
packages, with early return on error or panic. -/
def DuchessDeclaration.toRootMapFrom (env : Env) :
    List JavaPackage → List (Id × SpannedPackageInfo) → List (DotId × ClassInfo) →
    Reflector → PResult RootMap × Reflector × List DotId
  | [], subs, classes, r => (.ok ⟨subs, classes⟩, r, [])
  | p :: ps, subs, classes, r =>
    match p.to_spanned_packages env p.package_name.ids subs classes r with
    | (.ok _, subs2, classes2, r2, log1) =>
        let (res, r3, log2) := DuchessDeclaration.toRootMapFrom env ps subs2 classes2 r2
        (res, r3, log1 ++ log2)
    | (.err e, _, _, r2, log1) => (.err e, r2, log1)
    | (.fatal m, _, _, r2, log1) => (.fatal m, r2, log1)

/-- `DuchessDeclaration::to_root_map` (`reflect.rs` lines 14-31). -/
def DuchessDeclaration.to_root_map (env : Env) (d : DuchessDeclaration) (r : Reflector) :
    PResult RootMap × Reflector × List DotId :=
  DuchessDeclaration.toRootMapFrom env d.packages [] [] r

/-! ### Derived notions used by the theorems -/

/-- Is this declaration a fully specified class whose declared name has no
package segments (so its qualification cannot fail)? -/
def ClassDecl.simpleSpecified : ClassDecl → Prop
  | .specified c => c.name.ids.dropLast = []
  | .reflected _ _ => False

instance : DecidablePred ClassDecl.simpleSpecified := by
  intro c
  cases c with
  | reflected s n => exact isFalse (fun h => h)
  | specified c => exact inferInstanceAs (Decidable (c.name.ids.dropLast = []))

/-- The qualified name a single class declaration resolves to inside `p`
(when its declared name has no package segments). -/
def JavaPackage.declAbs (p : JavaPackage) (c : ClassDecl) : DotId :=
  DotId.new (p.package_name.ids.map Ident.to_id) c.declName.split.2

/-- The qualified names a package's class declarations resolve to. -/
def JavaPackage.absNames (p : JavaPackage) : List DotId :=
  p.classes.map p.declAbs

/-- Apply `f` to the node addressed by the segment path `ns`, creating the
missing intermediate nodes exactly as `to_spanned_packages` does. -/
def applyAtPath (map : List (Id × SpannedPackageInfo)) (ns : List Ident)
    (f : SpannedPackageInfo → SpannedPackageInfo) : List (Id × SpannedPackageInfo) :=
  match ns with
  | [] => map
  | first :: rest =>
    let fid := first.to_id
    let parent := (mapFind map fid).getD (.mk fid first.span [] [])
    if rest.isEmpty then mapInsert map fid (f parent)
    else mapInsert map fid (parent.withSubpackages (applyAtPath parent.subpackages rest f))

/-- The tree holding exactly one chain of nodes along `ns`, with `f`
applied to the final, freshly created node. -/
def singletonPath (ns : List Ident) (f : SpannedPackageInfo → SpannedPackageInfo) :
    List (Id × SpannedPackageInfo) :=
  match ns with
  | [] => []
  | first :: rest =>
    if rest.isEmpty then [(first.to_id, f (.mk first.to_id first.span [] []))]
    else [(first.to_id, .mk first.to_id first.span (singletonPath rest f) [])]

/-! ### Map lemmas -/

theorem mapFind_insert_self {κ α : Type} [DecidableEq κ]
    (m : List (κ × α)) (k : κ) (v : α) : mapFind (mapInsert m k v) k = some v := by
  induction m with
  | nil => simp [mapInsert, mapFind]
  | cons hd tl ih =>
      obtain ⟨k2, v2⟩ := hd
      by_cases hk : k2 = k
      · simp [mapInsert, hk, mapFind]
      · simp [mapInsert, hk, mapFind, ih]

theorem mapInsert_insert_self {κ α : Type} [DecidableEq κ]
    (m : List (κ × α)) (k : κ) (v w : α) :
    mapInsert (mapInsert m k v) k w = mapInsert m k w := by
  induction m with
  | nil => simp [mapInsert]
  | cons hd tl ih =>
      obtain ⟨k2, v2⟩ := hd
      by_cases hk : k2 = k
      · simp [mapInsert, hk]
      · simp [mapInsert, hk, ih]

/-- Inversion for a successful `reflect`: either it was a cache hit
(entry already present, state and I/O untouched), or it was a miss whose
parse succeeded: the returned info has its span reset to the call site,
it is inserted into the cache, and exactly one subprocess ran. -/
theorem reflect_ok_inv (env : Env) (r : Reflector) (X : DotId) (s : Span)
    (ci : ClassInfo) (r1 : Reflector) (log1 : List DotId)
    (h : r.reflect env X s = (.ok ci, r1, log1)) :
    (mapFind r.classes X = some ci ∧ r1 = r ∧ log1 = []) ∨
    (mapFind r.classes X = none ∧ ci.span = Span.callSite ∧
      r1 = ⟨mapInsert r.classes X ci⟩ ∧ log1 = [X]) := by
  unfold Reflector.reflect at h
  split at h
  next ci0 hf =>
    simp only [Prod.mk.injEq, PResult.ok.injEq] at h
    obtain ⟨hci, hr, hlog⟩ := h
    exact Or.inl ⟨hci ▸ hf, hr.symm, hlog.symm⟩
  next hf =>
    split at h
    · simp at h
    next cp hcp =>
      split at h
      next msg hj => simp at h
      next o hj =>
        split at h
        · simp at h
        next hsucc =>
          split at h
          next hdec => simp at h
          next str hdec =>
            split at h
            next e hp => simp at h
            next ci0 hp =>
              simp only [Prod.mk.injEq, PResult.ok.injEq] at h
              obtain ⟨hci, hr, hlog⟩ := h
              subst hci
              subst hr
              subst hlog
              exact Or.inr ⟨hf, rfl, rfl, rfl⟩

/-- Inversion for an error return of `reflect`: the cache is unchanged and
exactly one subprocess invocation was attempted. -/
theorem reflect_err_inv (env : Env) (r : Reflector) (X : DotId) (s : Span)
    (e : SpanError) (r1 : Reflector) (log1 : List DotId)
    (h : r.reflect env X s = (.err e, r1, log1)) :
    r1 = r ∧ log1 = [X] := by
  unfold Reflector.reflect at h
  split at h
  next ci0 hf => simp at h
  next hf =>
    split at h
    · simp at h
    next cp hcp =>
      split at h
      next msg hj =>
        simp only [Prod.mk.injEq, PResult.err.injEq] at h
        exact ⟨h.2.1.symm, h.2.2.symm⟩
      next o hj =>
        split at h
        next hsucc =>
          simp only [Prod.mk.injEq, PResult.err.injEq] at h
          exact ⟨h.2.1.symm, h.2.2.symm⟩
        next hsucc =>
          split at h
          next hdec =>
            simp only [Prod.mk.injEq, PResult.err.injEq] at h
            exact ⟨h.2.1.symm, h.2.2.symm⟩
          next str hdec =>
            split at h
            next e2 hp =>
              simp only [Prod.mk.injEq, PResult.err.injEq] at h
              exact ⟨h.2.1.symm, h.2.2.symm⟩
            next ci0 hp => simp at h

/-! ### Concrete instances used by the witnesses -/

/-- A concrete qualified name. -/
def objName : DotId := ⟨["java", "lang", "Object"]⟩

/-- A concrete parsed class (one constructor), as the parser produced it:
its span is still a source span. -/
def sampleInfo : ClassInfo := ⟨objName, Span.source 7, [⟨[], []⟩], [], []⟩

/-- An environment in which the disassembler succeeds and the parser
returns `sampleInfo`. -/
def envOk : Env :=
  ⟨some "build/classes",
   fun _ => .output ⟨true, .valid "class listing", .invalid 0⟩,
   fun _ _ => .ok sampleInfo⟩

/-- An environment whose `CLASSPATH` is absent. -/
def envNoClasspath : Env :=
  ⟨none, fun _ => .spawnError "never spawned", fun _ sp => .error ⟨sp, "unused"⟩⟩

/-- An environment in which spawning the disassembler fails. -/
def envSpawnFail : Env :=
  ⟨some "build/classes", fun _ => .spawnError "no javap", fun _ sp => .error ⟨sp, "unused"⟩⟩

/-- The empty reflection cache. -/
def emptyReflector : Reflector := ⟨[]⟩

/-- `sampleInfo` as `reflect` caches it: span reset to the call site. -/
def cachedInfo : ClassInfo := { sampleInfo with span := Span.callSite }

/-- The cache after one successful reflection of `objName`. -/
def cachedReflector : Reflector := ⟨[(objName, cachedInfo)]⟩

/-! ### C1: memoization of `reflect` -/

/-- C1.  If a call to `Reflector::reflect` on qualified name `X` returns a
`ClassInfo`, then that call spawned the external disassembler at most once,
the returned structure is the cache's shared entry for `X`, and a second
call for `X` (at any span) is a cache hit: it performs no I/O, leaves the
cache untouched, and returns the identical shared structure. -/
theorem reflect_memoizes (env : Env) (r : Reflector) (X : DotId) (s1 s2 : Span)
    (ci : ClassInfo) (r1 : Reflector) (log1 : List DotId)
    (h : r.reflect env X s1 = (.ok ci, r1, log1)) :
    log1.length ≤ 1 ∧ mapFind r1.classes X = some ci ∧
      r1.reflect env X s2 = (.ok ci, r1, []) := by
  rcases reflect_ok_inv env r X s1 ci r1 log1 h with ⟨hf, rfl, rfl⟩ | ⟨hf, hspan, rfl, rfl⟩
  · refine ⟨by simp, hf, ?_⟩
    unfold Reflector.reflect
    rw [hf]
  · refine ⟨by simp, mapFind_insert_self r.classes X ci, ?_⟩
    unfold Reflector.reflect
    have hfind : mapFind (Reflector.mk (mapInsert r.classes X ci)).classes X = some ci :=
      mapFind_insert_self r.classes X ci
    rw [hfind]

/-- Witness for C1 at a concrete run: a successful first reflection of
`java.lang.Object`, then a second call that hits the cache. -/
theorem reflect_memoizes_witness :
    [objName].length ≤ 1 ∧ mapFind cachedReflector.classes objName = some cachedInfo ∧
      cachedReflector.reflect envOk objName (Span.source 2) =
        (.ok cachedInfo, cachedReflector, []) :=
  reflect_memoizes envOk emptyReflector objName (Span.source 1) (Span.source 2)
    cachedInfo cachedReflector [objName] rfl

/-! ### C2: missing `CLASSPATH` -/

/-- Counterexample for C2 as stated: on a cache miss with `CLASSPATH`
absent, `reflect` does not return a `ConfigurationError` (it returns no
error value at all — it panics), although indeed no subprocess is
spawned. -/
theorem reflect_missing_classpath_no_error_returned :
    (Reflector.reflect envNoClasspath emptyReflector objName (Span.source 0)).1.isErr = false ∧
      Reflector.reflect envNoClasspath emptyReflector objName (Span.source 0) =
        (.fatal classpathPanicMsg, emptyReflector, []) :=
  ⟨rfl, rfl⟩

/-- C2 (amended).  On a cache miss, if `CLASSPATH` is absent, `reflect`
fails fatally by panicking before any subprocess is spawned: no I/O is
attempted and the cache is unchanged. -/
theorem reflect_missing_classpath_panics (env : Env) (r : Reflector) (X : DotId) (s : Span)
    (h1 : mapFind r.classes X = none) (h2 : env.classpath = none) :
    r.reflect env X s = (.fatal classpathPanicMsg, r, []) := by
  unfold Reflector.reflect
  rw [h1, h2]

/-- Witness for the amended C2 at a concrete input. -/
theorem reflect_missing_classpath_panics_witness :
    Reflector.reflect envNoClasspath emptyReflector objName (Span.source 0) =
      (.fatal classpathPanicMsg, emptyReflector, []) :=
  reflect_missing_classpath_panics envNoClasspath emptyReflector objName (Span.source 0)
    rfl rfl

/-! ### C7: span normalization -/

/-- C7.  When `reflect` parses disassembler output successfully (a cache
miss that returns a `ClassInfo`), the returned info's span is the call
site — not the span of the declaration that triggered the reflection — and
every subsequent cache hit for the same name returns that same structure,
whose span is the call site, independent of either request's span. -/
theorem reflect_normalizes_span (env : Env) (r : Reflector) (X : DotId) (s1 s2 : Span)
    (ci : ClassInfo) (r1 : Reflector) (log1 : List DotId)
    (hm : mapFind r.classes X = none)
    (h : r.reflect env X s1 = (.ok ci, r1, log1)) :
    ci.span = Span.callSite ∧ r1.reflect env X s2 = (.ok ci, r1, []) := by
  rcases reflect_ok_inv env r X s1 ci r1 log1 h with ⟨hf, _, _⟩ | ⟨_, hspan, rfl, rfl⟩
  · rw [hm] at hf; exact absurd hf (by simp)
  · refine ⟨hspan, ?_⟩
    unfold Reflector.reflect
    have hfind : mapFind (Reflector.mk (mapInsert r.classes X ci)).classes X = some ci :=
      mapFind_insert_self r.classes X ci
    rw [hfind]

/-- Witness for C7: the concrete successful reflection of
`java.lang.Object` at source span 1 yields the call-site span, and a hit
at source span 3 returns the same structure. -/
theorem reflect_normalizes_span_witness :
    cachedInfo.span = Span.callSite ∧
      cachedReflector.reflect envOk objName (Span.source 3) =
        (.ok cachedInfo, cachedReflector, []) :=
  reflect_normalizes_span envOk emptyReflector objName (Span.source 1) (Span.source 3)
    cachedInfo cachedReflector [objName] rfl rfl

/-! ### C8: error returns leave the cache unchanged -/

/-- C8.  Whenever `reflect` returns an error (spawn failure, nonzero exit,
non-UTF-8 output, or parse failure), the reflector's cache is exactly the
one it started with: no entry is inserted for the requested name. -/
theorem reflect_error_preserves_cache (env : Env) (r : Reflector) (X : DotId) (s : Span)
    (e : SpanError) (h : (r.reflect env X s).1 = .err e) :
    (r.reflect env X s).2.1 = r := by
  rcases hres : r.reflect env X s with ⟨o, r1, log1⟩
  rw [hres] at h
  simp only at h
  subst h
  exact (reflect_err_inv env r X s e r1 log1 hres).1

/-- Witness for C8: a concrete run whose subprocess spawn fails leaves the
empty cache empty. -/
theorem reflect_error_preserves_cache_witness :
    (Reflector.reflect envSpawnFail emptyReflector objName (Span.source 4)).2.1 =
      emptyReflector :=
  reflect_error_preserves_cache envSpawnFail emptyReflector objName (Span.source 4)
    ⟨Span.source 4, "failed to execute `javap`: " ++ "no javap"⟩ rfl

/-! ### C9: uniform accessors on constructors -/

/-- C9.  Every `ReflectedMethod` tagged `Constructor` reports the name
`"new"` and is static, regardless of the class or constructor. -/
theorem constructor_accessors_uniform (ci : ClassInfo) (c : Constructor) :
    (ReflectedMethod.constructor ci c).name = "new" ∧
      (ReflectedMethod.constructor ci c).is_static = true :=
  ⟨rfl, rfl⟩

/-! ### C10: the `ClassInfo` selector variant panics -/

/-- C10.  `reflect_method` is not total over the selector variants: every
selector of the `ClassInfo` variant hits the unimplemented branch and
panics (the `fatal` outcome), returning neither a `ReflectedMethod` nor an
error, and performing no I/O. -/
theorem reflect_method_class_info_panics (env : Env) (r : Reflector) (ci : ClassInfo) :
    r.reflect_method env (.classInfo ci) = (.fatal todoPanicMsg, r, []) :=
  rfl

/-! ### C3: class-only selector resolution -/

/-- C3.  For a cached class, a class-only selector resolves to the unique
constructor when the constructor list has exactly one element; an empty
list yields the no-constructors error, and a list of `n > 1` elements
yields the ambiguity error carrying the exact count `n`. -/
theorem reflect_method_class_selector (env : Env) (r : Reflector) (cn : JavaPath)
    (ci : ClassInfo) (h : mapFind r.classes cn.to_dot_id = some ci) :
    (∀ c, ci.constructors = [c] →
        r.reflect_method env (.className cn) = (.ok (.constructor ci c), r, []))
  ∧ (ci.constructors = [] →
        r.reflect_method env (.className cn) =
          (.err ⟨cn.span, "no constructors found"⟩, r, []))
  ∧ (∀ n, ci.constructors.length = n → 1 < n →
        r.reflect_method env (.className cn) =
          (.err ⟨cn.span, toString n ++
            " constructors found, use an explicit class declaration to disambiguate"⟩,
            r, [])) := by
  have hr : r.reflect env cn.to_dot_id cn.span = (.ok ci, r, []) := by
    unfold Reflector.reflect
    rw [h]
  refine ⟨?_, ?_, ?_⟩
  · intro c hc
    simp only [Reflector.reflect_method, hr]
    rw [hc]
  · intro hc
    simp only [Reflector.reflect_method, hr]
    rw [hc]
  · intro n hn hlt
    simp only [Reflector.reflect_method, hr]
    rcases hcs : ci.constructors with _ | ⟨a, _ | ⟨b, t⟩⟩
    · rw [hcs] at hn; simp at hn; omega
    · rw [hcs] at hn; simp at hn; omega
    · rw [hcs] at hn
      rw [← hn]

/-- A class with two public constructors. -/
def twoCtorInfo : ClassInfo :=
  ⟨⟨["p", "C"]⟩, Span.callSite,
   [⟨[], []⟩, ⟨[], [JType.primitive "int"]⟩], [], []⟩

/-- The selector path `p.C` as written by a user. -/
def pathC : JavaPath :=
  ⟨[⟨"p", Span.source 10⟩, ⟨"C", Span.source 10⟩], Span.source 10⟩

/-- A cache already holding `p.C` with two constructors. -/
def ctorReflector : Reflector := ⟨[(pathC.to_dot_id, twoCtorInfo)]⟩

/-- Witness for C3: resolving `p.C` with two constructors yields the
ambiguity error carrying the count 2. -/
theorem reflect_method_class_selector_witness :
    Reflector.reflect_method envOk ctorReflector (.className pathC) =
      (.err ⟨pathC.span, toString 2 ++
        " constructors found, use an explicit class declaration to disambiguate"⟩,
        ctorReflector, []) :=
  (reflect_method_class_selector envOk ctorReflector pathC twoCtorInfo rfl).2.2
    2 rfl (by norm_num)

/-! ### C4: class+method selector resolution -/

/-- C4.  For a cached class, a class+method selector filters the class's
methods by exact name equality with the requested name: a singleton filter
result resolves to that method, an empty one yields the no-methods error
naming the method, and a filter result of length `n > 1` yields the
ambiguity error carrying the name and the exact count `n` — the filter
looks only at names, never at arity or parameter types. -/
theorem reflect_method_name_selector (env : Env) (r : Reflector) (cn : JavaPath)
    (mn : Ident) (ci : ClassInfo) (h : mapFind r.classes cn.to_dot_id = some ci) :
    (∀ m, ci.methods.filter (fun m2 => m2.name == mn.text) = [m] →
        r.reflect_method env (.methodName cn mn) = (.ok (.method ci m), r, []))
  ∧ (ci.methods.filter (fun m2 => m2.name == mn.text) = [] →
        r.reflect_method env (.methodName cn mn) =
          (.err ⟨cn.span, "no methods named `" ++ mn.text ++ "` found"⟩, r, []))
  ∧ (∀ ms, ci.methods.filter (fun m2 => m2.name == mn.text) = ms → 1 < ms.length →
        r.reflect_method env (.methodName cn mn) =
          (.err ⟨cn.span, toString ms.length ++ " methods named `" ++ mn.text ++
            "` found, use an explicit class declaration to disambiguate"⟩,
            r, [])) := by
  have hr : r.reflect env cn.to_dot_id cn.span = (.ok ci, r, []) := by
    unfold Reflector.reflect
    rw [h]
  refine ⟨?_, ?_, ?_⟩
  · intro m hm
    simp only [Reflector.reflect_method, hr]
    rw [hm]
  · intro hm
    simp only [Reflector.reflect_method, hr]
    rw [hm]
  · intro ms hms hlt
    simp only [Reflector.reflect_method, hr]
    rcases ms with _ | ⟨a, _ | ⟨b, t⟩⟩
    · simp at hlt
    · simp at hlt
    · rw [hms]

/-- A method descriptor named `frob` with the given arguments. -/
def frobMethod (args : List JType) : Method :=
  ⟨"frob", ⟨false⟩, [], args, none⟩

/-- A class with two overloads of `frob` (different arities). -/
def twoFrobInfo : ClassInfo :=
  ⟨⟨["p", "D"]⟩, Span.callSite, [⟨[], []⟩],
   [frobMethod [], frobMethod [JType.primitive "long"]], []⟩

/-- The selector path `p.D`. -/
def pathD : JavaPath :=
  ⟨[⟨"p", Span.source 11⟩, ⟨"D", Span.source 11⟩], Span.source 11⟩

/-- A cache already holding `p.D`. -/
def frobReflector : Reflector := ⟨[(pathD.to_dot_id, twoFrobInfo)]⟩

/-- Witness for C4: resolving `p.D::frob` with two same-named overloads of
different arity yields the ambiguity error carrying the name and count 2 —
arity does not break the tie. -/
theorem reflect_method_name_selector_witness :
    Reflector.reflect_method envOk frobReflector
        (.methodName pathD ⟨"frob", Span.source 12⟩) =
      (.err ⟨pathD.span, toString 2 ++ " methods named `" ++ "frob" ++
        "` found, use an explicit class declaration to disambiguate"⟩,
        frobReflector, []) :=
  (reflect_method_name_selector envOk frobReflector pathD ⟨"frob", Span.source 12⟩
      twoFrobInfo rfl).2.2
    [frobMethod [], frobMethod [JType.primitive "long"]] rfl (by norm_num)

/-! ### C5: name qualification -/

/-- C5.  Inside a package declaration, a class name without package
segments is qualified by the enclosing package's name followed by the
class name; a class name with explicit package segments that differ from
the enclosing package's name fails with the package-mismatch error
carrying the declaration's span. -/
theorem make_absolute_qualification (p : JavaPackage) (span : Span) (d : DotId) :
    (d.split.1 = [] →
        p.make_absolute_dot_id span d =
          .ok (DotId.new (p.package_name.ids.map Ident.to_id) d.split.2))
  ∧ (d.split.1 ≠ [] → p.package_name.ids.map Ident.to_id ≠ d.split.1 →
        p.make_absolute_dot_id span d = .error ⟨span, packageMismatchMsg p d⟩) := by
  constructor
  · intro h1
    simp only [JavaPackage.make_absolute_dot_id]
    rw [if_pos h1]
  · intro h1 h2
    simp only [JavaPackage.make_absolute_dot_id]
    rw [if_neg h1, if_pos h2]

/-- The enclosing package declaration `a.b`. -/
def packageAB : JavaPackage :=
  ⟨⟨[⟨"a", Span.source 20⟩, ⟨"b", Span.source 20⟩], Span.source 20⟩, []⟩

/-- Witness for C5: inside package `a.b`, the explicit name `b.Foo` is a
package mismatch reported at the declaration's span. -/
theorem make_absolute_qualification_witness :
    packageAB.make_absolute_dot_id (Span.source 21) ⟨["b", "Foo"]⟩ =
      .error ⟨Span.source 21, packageMismatchMsg packageAB ⟨["b", "Foo"]⟩⟩ :=
  (make_absolute_qualification packageAB (Span.source 21) ⟨["b", "Foo"]⟩).2
    (by decide) (by decide)

/-! ### C6: merging duplicate package declarations -/

theorem SpannedPackageInfo.appendClasses_nil (p : SpannedPackageInfo) :
    p.appendClasses [] = p := by
  cases p
  simp [SpannedPackageInfo.appendClasses]

theorem SpannedPackageInfo.pushClass_appendClasses (p : SpannedPackageInfo)
    (d : DotId) (ds : List DotId) :
    (p.pushClass d).appendClasses ds = p.appendClasses (d :: ds) := by
  cases p
  simp [SpannedPackageInfo.pushClass, SpannedPackageInfo.appendClasses]

theorem SpannedPackageInfo.appendClasses_appendClasses (p : SpannedPackageInfo)
    (ds es : List DotId) :
    (p.appendClasses ds).appendClasses es = p.appendClasses (ds ++ es) := by
  cases p
  simp [SpannedPackageInfo.appendClasses]

theorem SpannedPackageInfo.subpackages_withSubpackages (p : SpannedPackageInfo)
    (s : List (Id × SpannedPackageInfo)) : (p.withSubpackages s).subpackages = s := by
  cases p
  rfl

theorem SpannedPackageInfo.withSubpackages_withSubpackages (p : SpannedPackageInfo)
    (s t : List (Id × SpannedPackageInfo)) :
    (p.withSubpackages s).withSubpackages t = p.withSubpackages t := by
  cases p
  rfl

/-- Qualification of a segment-free class name always succeeds. -/
theorem make_absolute_simple (p : JavaPackage) (span : Span) (d : DotId)
    (h : d.ids.dropLast = []) :
    p.make_absolute_dot_id span d =
      .ok (DotId.new (p.package_name.ids.map Ident.to_id) d.split.2) := by
  simp only [JavaPackage.make_absolute_dot_id, DotId.split]
  rw [if_pos h]

/-- `insert_classes_into_root_map` on fully specified, segment-free class
declarations: it succeeds, appends the qualified names to the node's class
list, performs no reflection and no I/O. -/
theorem insertClassesFrom_specified (env : Env) (p : JavaPackage) (cs : List ClassDecl)
    (h : ∀ c ∈ cs, c.simpleSpecified) :
    ∀ (pkg : SpannedPackageInfo) (classes : List (DotId × ClassInfo)) (r : Reflector),
      ∃ cm, p.insertClassesFrom env cs pkg classes r =
        (.ok (), pkg.appendClasses (cs.map p.declAbs), cm, r, []) := by
  induction cs with
  | nil =>
      intro pkg classes r
      exact ⟨classes, by simp [JavaPackage.insertClassesFrom,
        SpannedPackageInfo.appendClasses_nil]⟩
  | cons c rest ih =>
      intro pkg classes r
      have hrest : ∀ x ∈ rest, x.simpleSpecified :=
        fun x hx => h x (List.mem_cons_of_mem _ hx)
      cases c with
      | reflected s n => exact (h _ (List.mem_cons_self _ _)).elim
      | specified ci =>
          have hname : ci.name.ids.dropLast = [] := h _ (List.mem_cons_self _ _)
          obtain ⟨cm, hrec⟩ := ih hrest
            (pkg.pushClass (p.declAbs (.specified ci)))
            (mapInsert classes (p.declAbs (.specified ci))
              { ci with name := p.declAbs (.specified ci) }) r
          refine ⟨cm, ?_⟩
          simp only [JavaPackage.insertClassesFrom,
            make_absolute_simple p ci.span ci.name hname]
          have habs : DotId.new (p.package_name.ids.map Ident.to_id) ci.name.split.2 =
              p.declAbs (.specified ci) := rfl
          rw [habs, hrec, SpannedPackageInfo.pushClass_appendClasses]
          simp [JavaPackage.declAbs]

/-- `to_spanned_packages` on a package of fully specified, segment-free
classes: it succeeds, performs no I/O, leaves the reflector untouched, and
its effect on the package tree is exactly `applyAtPath` along the package's
name with the package's resolved class names appended at the final node. -/
theorem toSpannedPackages_specified (env : Env) (p : JavaPackage)
    (h : ∀ c ∈ p.classes, c.simpleSpecified) :
    ∀ (ns : List Ident), ns ≠ [] →
      ∀ (map : List (Id × SpannedPackageInfo)) (classes : List (DotId × ClassInfo))
        (r : Reflector),
      ∃ cm, p.to_spanned_packages env ns map classes r =
        (.ok (), applyAtPath map ns (fun node => node.appendClasses p.absNames),
          cm, r, []) := by
  intro ns
  induction ns with
  | nil => exact fun hne => absurd rfl hne
  | cons first rest ih =>
      intro _ map classes r
      by_cases hrest : rest.isEmpty
      · obtain ⟨cm, hA⟩ := insertClassesFrom_specified env p p.classes h
          ((mapFind map first.to_id).getD (.mk first.to_id first.span [] [])) classes r
        refine ⟨cm, ?_⟩
        simp only [JavaPackage.to_spanned_packages, JavaPackage.insert_classes_into_root_map,
          hrest, if_true, applyAtPath, hA, JavaPackage.absNames]
      · have hne2 : rest ≠ [] := by
          intro hx
          rw [hx] at hrest
          exact hrest rfl
        obtain ⟨cm, hB⟩ := ih hne2
          ((mapFind map first.to_id).getD (.mk first.to_id first.span [] [])).subpackages
          classes r
        refine ⟨cm, ?_⟩
        simp only [JavaPackage.to_spanned_packages, hrest, if_false, applyAtPath, hB,
          Bool.false_eq_true]

/-- Applying twice along the same non-empty path composes. -/
theorem applyAtPath_comp (ns : List Ident) (hne : ns ≠ [])
    (map : List (Id × SpannedPackageInfo))
    (f g : SpannedPackageInfo → SpannedPackageInfo) :
    applyAtPath (applyAtPath map ns f) ns g =
      applyAtPath map ns (fun node => g (f node)) := by
  induction ns generalizing map with
  | nil => exact absurd rfl hne
  | cons first rest ih =>
      by_cases hrest : rest.isEmpty
      · simp only [applyAtPath, hrest, if_true, mapFind_insert_self, Option.getD_some,
          mapInsert_insert_self]
      · have hne2 : rest ≠ [] := by
          intro hx
          rw [hx] at hrest
          exact hrest rfl
        simp only [applyAtPath, hrest, if_false, mapFind_insert_self, Option.getD_some,
          mapInsert_insert_self, SpannedPackageInfo.subpackages_withSubpackages,
          SpannedPackageInfo.withSubpackages_withSubpackages, ih hne2,
          Bool.false_eq_true]

/-- Starting from the empty tree, `applyAtPath` builds the singleton chain. -/
theorem applyAtPath_nil_eq_singletonPath (ns : List Ident) (hne : ns ≠ [])
    (f : SpannedPackageInfo → SpannedPackageInfo) :
    applyAtPath [] ns f = singletonPath ns f := by
  induction ns with
  | nil => exact absurd rfl hne
  | cons first rest ih =>
      by_cases hrest : rest.isEmpty
      · simp only [applyAtPath, singletonPath, hrest, if_true, mapFind, Option.getD_none,
          mapInsert]
      · have hne2 : rest ≠ [] := by
          intro hx
          rw [hx] at hrest
          exact hrest rfl
        simp only [applyAtPath, singletonPath, hrest, if_false, mapFind, Option.getD_none,
          mapInsert, ih hne2, SpannedPackageInfo.withSubpackages,
          SpannedPackageInfo.subpackages, Bool.false_eq_true]

/-- C6.  Declaring the same package more than once is not an error: the
declarations are merged into a single `PackageNode`.  First part: two
declarations of the same (arbitrary, non-empty) package name, each holding
fully specified segment-free classes, build successfully into a single
chain of nodes whose final node's class list is the concatenation of the
two declarations' resolved class lists.  Second part: a declaration of
package `a` and one of package `a.b` merge into one node for `a` carrying
both the first declaration's classes and the subtree for `b` — the
subpackage trees are unioned into the single node. -/
theorem root_map_merges_duplicate_packages (env : Env) (r : Reflector)
    (ns : List Ident) (hne : ns ≠ []) (p1 p2 : JavaPackage)
    (hn1 : p1.package_name.ids = ns) (hn2 : p2.package_name.ids = ns)
    (h1 : ∀ c ∈ p1.classes, c.simpleSpecified) (h2 : ∀ c ∈ p2.classes, c.simpleSpecified)
    (a b : Ident) (q1 q2 : JavaPackage)
    (ha1 : q1.package_name.ids = [a]) (ha2 : q2.package_name.ids = [a, b])
    (hq1 : ∀ c ∈ q1.classes, c.simpleSpecified)
    (hq2 : ∀ c ∈ q2.classes, c.simpleSpecified) :
    (∃ cm, DuchessDeclaration.to_root_map env ⟨[p1, p2]⟩ r =
      (.ok ⟨singletonPath ns
          (fun node => node.appendClasses (p1.absNames ++ p2.absNames)), cm⟩, r, []))
  ∧ (∃ cm, DuchessDeclaration.to_root_map env ⟨[q1, q2]⟩ r =
      (.ok ⟨[(a.to_id, .mk a.to_id a.span
          [(b.to_id, .mk b.to_id b.span [] q2.absNames)] q1.absNames)], cm⟩, r, [])) := by
  constructor
  · obtain ⟨cm1, hB1⟩ := toSpannedPackages_specified env p1 h1 ns hne [] [] r
    obtain ⟨cm2, hB2⟩ := toSpannedPackages_specified env p2 h2 ns hne
      (applyAtPath [] ns (fun node => node.appendClasses p1.absNames)) cm1 r
    refine ⟨cm2, ?_⟩
    simp only [DuchessDeclaration.to_root_map, DuchessDeclaration.toRootMapFrom,
      hn1, hn2, hB1, hB2, List.append_nil, List.nil_append]
    rw [applyAtPath_comp ns hne, applyAtPath_nil_eq_singletonPath ns hne]
    have : (fun node : SpannedPackageInfo =>
          (node.appendClasses p1.absNames).appendClasses p2.absNames) =
        (fun node : SpannedPackageInfo =>
          node.appendClasses (p1.absNames ++ p2.absNames)) := by
      funext node
      exact SpannedPackageInfo.appendClasses_appendClasses node p1.absNames p2.absNames
    rw [this]
  · obtain ⟨cm1, hB1⟩ := toSpannedPackages_specified env q1 hq1 [a] (by simp) [] [] r
    obtain ⟨cm2, hB2⟩ := toSpannedPackages_specified env q2 hq2 [a, b] (by simp)
      (applyAtPath [] [a] (fun node => node.appendClasses q1.absNames)) cm1 r
    refine ⟨cm2, ?_⟩
    simp only [DuchessDeclaration.to_root_map, DuchessDeclaration.toRootMapFrom,
      ha1, ha2, hB1, hB2, List.append_nil, List.nil_append]
    simp [applyAtPath, mapFind, mapInsert, SpannedPackageInfo.withSubpackages,
      SpannedPackageInfo.appendClasses]

/-- Segment-free specified singletons satisfy `simpleSpecified`. -/
theorem simpleSpecified_singleton (c : ClassInfo) (h : c.name.ids.dropLast = []) :
    ∀ x ∈ [ClassDecl.specified c], x.simpleSpecified := by
  intro x hx
  rw [List.mem_singleton] at hx
  subst hx
  exact h

/-- The identifier `a`. -/
def identA : Ident := ⟨"a", Span.source 30⟩

/-- The identifier `b`. -/
def identB : Ident := ⟨"b", Span.source 30⟩

/-- A literal class `Foo` with no members. -/
def fooInfo : ClassInfo := ⟨⟨["Foo"]⟩, Span.source 31, [], [], []⟩

/-- A literal class `Bar` with no members. -/
def barInfo : ClassInfo := ⟨⟨["Bar"]⟩, Span.source 32, [], [], []⟩

/-- Declaration of package `a.b` containing the specified class `Foo`. -/
def pkgDeclFoo : JavaPackage :=
  ⟨⟨[identA, identB], Span.source 30⟩, [.specified fooInfo]⟩

/-- A second declaration of package `a.b`, containing the specified class
`Bar`. -/
def pkgDeclBar : JavaPackage :=
  ⟨⟨[identA, identB], Span.source 30⟩, [.specified barInfo]⟩

/-- Declaration of package `a` containing the specified class `Foo`. -/
def pkgDeclA : JavaPackage :=
  ⟨⟨[identA], Span.source 30⟩, [.specified fooInfo]⟩

/-- Witness for C6: package `a.b` declared twice with disjoint class sets
merges into one chain whose final node lists both classes, and declaring
`a` and `a.b` merges into a single node for `a` carrying both the classes
and the subtree. -/
theorem root_map_merges_duplicate_packages_witness :
    (∃ cm, DuchessDeclaration.to_root_map envOk ⟨[pkgDeclFoo, pkgDeclBar]⟩ emptyReflector =
      (.ok ⟨singletonPath [identA, identB]
          (fun node => node.appendClasses (pkgDeclFoo.absNames ++ pkgDeclBar.absNames)),
        cm⟩, emptyReflector, []))
  ∧ (∃ cm, DuchessDeclaration.to_root_map envOk ⟨[pkgDeclA, pkgDeclBar]⟩ emptyReflector =
      (.ok ⟨[(identA.to_id, .mk identA.to_id identA.span
          [(identB.to_id, .mk identB.to_id identB.span [] pkgDeclBar.absNames)]
          pkgDeclA.absNames)], cm⟩, emptyReflector, [])) :=
  root_map_merges_duplicate_packages envOk emptyReflector [identA, identB] (by simp)
    pkgDeclFoo pkgDeclBar rfl rfl
    (simpleSpecified_singleton fooInfo rfl)
    (simpleSpecified_singleton barInfo rfl)
    identA identB pkgDeclA pkgDeclBar rfl rfl
    (simpleSpecified_singleton fooInfo rfl)
    (simpleSpecified_singleton barInfo rfl)

end Duchess
